import Mathlib

/-!
Shallow embedding of the Marduk NABU emulator's platform glue
(memory bus, interrupt priority network, disk-controller state machine,
keyboard watchdog), translated from `src/main.c` (v0.23),
`src/unnamed/part_001` (main.c, v0.26e) and `src/disk.c`.

Machine bytes are modelled as `Nat` with explicit 8-bit masking where the
C code masks; byte arrays are modelled as total functions `Nat → Nat`;
`FILE *` handles are modelled as `Option (Nat → Nat)` (the mounted image
as a byte function, `none` = no image mounted).
-/

/-- Output pins of the 8-to-3 priority encoder `int_prio_enc`:
group select, the three code outputs and the error (enable) output. -/
structure EncOut where
  GS : Bool
  Q0 : Bool
  Q1 : Bool
  Q2 : Bool
  EO : Bool
deriving DecidableEq

/-- Priority encoder, from `int_prio_enc` in `src/unnamed/part_001`
(main.c v0.26e, the latest revision; its final branch sets all three
code outputs to 1).  Inputs are active low: an asserted request is
`false`.  The C ints holding the pin levels only ever take values 0/1
and are modelled as `Bool`. -/
def int_prio_enc (EI I0 I1 I2 I3 I4 I5 I6 I7 : Bool) : EncOut :=
  if EI then ⟨true, true, true, true, true⟩
  else if I0 && I1 && I2 && I3 && I4 && I5 && I6 && I7 then
    ⟨true, true, true, true, false⟩
  else if !I7 then ⟨false, false, false, false, true⟩
  else if !I6 then ⟨false, true, false, false, true⟩
  else if !I5 then ⟨false, false, true, false, true⟩
  else if !I4 then ⟨false, true, true, false, true⟩
  else if !I3 then ⟨false, false, false, true, true⟩
  else if !I2 then ⟨false, true, false, true, true⟩
  else if !I1 then ⟨false, false, true, true, true⟩
  else ⟨false, true, true, true, true⟩

/-- Historical variant of the encoder from `src/main.c` (v0.23), whose
final branch is the self-assignment `*Q0 = *Q1 = *Q2;` and therefore
leaves all three code outputs at 0. -/
def int_prio_enc_v023 (EI I0 I1 I2 I3 I4 I5 I6 I7 : Bool) : EncOut :=
  if EI then ⟨true, true, true, true, true⟩
  else if I0 && I1 && I2 && I3 && I4 && I5 && I6 && I7 then
    ⟨true, true, true, true, false⟩
  else if !I7 then ⟨false, false, false, false, true⟩
  else if !I6 then ⟨false, true, false, false, true⟩
  else if !I5 then ⟨false, false, true, false, true⟩
  else if !I4 then ⟨false, true, true, false, true⟩
  else if !I3 then ⟨false, false, false, true, true⟩
  else if !I2 then ⟨false, true, false, true, true⟩
  else if !I1 then ⟨false, false, true, true, true⟩
  else ⟨false, false, false, false, true⟩

/-- Vector form of the encoder, from `int_prio_enc_alt`: input `n` is
bit `n` of the word. -/
def int_prio_enc_alt (EI : Bool) (v : Nat) : EncOut :=
  int_prio_enc EI (v.testBit 0) (v.testBit 1) (v.testBit 2) (v.testBit 3)
    (v.testBit 4) (v.testBit 5) (v.testBit 6) (v.testBit 7)

/-- Numeric value of the code outputs, Q0 the least significant bit
(this is how `update_interrupts` packs them into the status byte). -/
def encCode (e : EncOut) : Nat :=
  e.Q0.toNat + 2 * e.Q1.toNat + 4 * e.Q2.toNat

/-- Specification-side definition, following the claim's words: the
3-bit code of the first low input found scanning from bit 7 down to
bit 0 (bit7 giving code 0 and bit0 code 7). -/
def firstLowBitCode (I0 I1 I2 I3 I4 I5 I6 I7 : Bool) : Nat :=
  if !I7 then 0
  else if !I6 then 1
  else if !I5 then 2
  else if !I4 then 3
  else if !I3 then 4
  else if !I2 then 5
  else if !I1 then 6
  else 7

/-- Memory-bus state: 64K RAM, up to 8K ROM (both as byte functions),
the latched control register and the ROM size, from `src/main.c`. -/
structure MemState where
  RAM : Nat → Nat
  ROM : Nat → Nat
  ctrlreg : Nat
  romsize : Nat

/-- Memory read, from `mem_read` in `src/main.c`: ROM overrides RAM
below `romsize` while control-register bit 0 (ROM disable) is clear. -/
def mem_read (m : MemState) (addr : Nat) : Nat :=
  if m.ctrlreg &&& 0x01 = 0 ∧ addr < m.romsize then m.ROM addr
  else m.RAM addr

/-- Memory write, from `mem_write` in `src/main.c`: all writes go to
RAM. -/
def mem_write (m : MemState) (addr val : Nat) : MemState :=
  { m with RAM := fun a => if a = addr then val else m.RAM a }

/-- State touched by the interrupt recompute `update_interrupts`
(main.c v0.26e): the four sticky line flags, the composite `interrupts`
byte, the PSG port A (enable mask) and port B bytes, the PSG register
15 cell written through `PSG_writeReg`, and the CPU core's latched
interrupt request. -/
structure IntState where
  hccarint : Bool
  hccatint : Bool
  keybdint : Bool
  vdpint : Bool
  interrupts : Nat
  psg_porta : Nat
  psg_portb : Nat
  psgReg15 : Nat
  int_pending : Bool
  int_data : Nat
deriving DecidableEq

/-- Set or clear one bit of a byte: `x |= m` when the flag is set,
`x &= ~m` (8-bit complement) when clear, as in the flag-merge prefix of
`update_interrupts`. -/
def set_or_clear (b : Bool) (m x : Nat) : Nat :=
  if b then x ||| m else x &&& (255 ^^^ m)

/-- Merge of the four sticky line flags into bits 7..4 of the
`interrupts` byte, from the first half of `update_interrupts`. -/
def merge_lines (r t k v : Bool) (x : Nat) : Nat :=
  set_or_clear v 0x10 (set_or_clear k 0x20 (set_or_clear t 0x40 (set_or_clear r 0x80 x)))

/-- Encoder input word `int_prio = ~(interrupts & psg_porta)`, reduced
to its low 8 bits (the only bits `int_prio_enc_alt` reads). -/
def int_prio_word (s : IntState) : Nat :=
  255 ^^^ ((merge_lines s.hccarint s.hccatint s.keybdint s.vdpint s.interrupts) &&& s.psg_porta)

/-- Encoder output of one recompute on state `s`. -/
def encOf (s : IntState) : EncOut :=
  int_prio_enc_alt false (int_prio_word s)

/-- New PSG port B byte: low nibble replaced by EO and the three code
outputs, from `psg_portb &= 0xf0; psg_portb |= EO | (Q0<<1) | (Q1<<2) | (Q2<<3)`. -/
def portb_new (s : IntState) : Nat :=
  (s.psg_portb &&& 0xF0) |||
    ((encOf s).EO.toNat ||| ((encOf s).Q0.toNat <<< 1) |||
      ((encOf s).Q1.toNat <<< 2) ||| ((encOf s).Q2.toNat <<< 3))

/-- Modelled from the spec: the CPU core's interrupt-request primitive
`z80_gen_int(z80 *, uint8_t state, uint8_t data)` (declared in the
bundled z80.h; z80.c itself is not among the sources).  Per the spec,
when group select is not asserted the CPU is signaled with a maskable
interrupt request carrying the data byte for the acknowledge cycle, and
when group select is asserted no request is raised; the primitive
latches the request level and the data byte. -/
def z80_gen_int (st : Bool) (data : Nat) (s : IntState) : IntState :=
  { s with int_pending := st, int_data := data }

/-- Interrupt recompute, from `update_interrupts` in
`src/unnamed/part_001` (main.c v0.26e): merge the sticky flags into the
`interrupts` byte, run the complement of the masked byte through the
priority encoder, write the packed status nibble to PSG port B
(register 15), and pass `!GS` with the low nibble (bits 1..3) of the
status byte to `z80_gen_int`. -/
def update_interrupts (s : IntState) : IntState :=
  let i := merge_lines s.hccarint s.hccatint s.keybdint s.vdpint s.interrupts
  let e := int_prio_enc_alt false (255 ^^^ (i &&& s.psg_porta))
  let pb := (s.psg_portb &&& 0xF0) |||
    (e.EO.toNat ||| (e.Q0.toNat <<< 1) ||| (e.Q1.toNat <<< 2) ||| (e.Q2.toNat <<< 3))
  z80_gen_int (!e.GS) (pb &&& 0x0E)
    { s with interrupts := i, psg_portb := pb, psgReg15 := pb }

/-- The four sticky interrupt lines. -/
inductive Line where
  | hccar
  | hccat
  | keybd
  | vdp
deriving DecidableEq

/-- Bit position a line occupies in the composite `interrupts` byte. -/
def lineBit : Line → Nat
  | .hccar => 7
  | .hccat => 6
  | .keybd => 5
  | .vdp => 4

/-- Overwrite one sticky line flag. -/
def setLine : Line → Bool → IntState → IntState
  | .hccar, b, s => { s with hccarint := b }
  | .hccat, b, s => { s with hccatint := b }
  | .keybd, b, s => { s with keybdint := b }
  | .vdp, b, s => { s with vdpint := b }

/-- Disk-controller state, from the globals of `src/disk.c`: track,
sector and data registers, status byte, transfer mode (`DM_NONE` = 0 /
`DM_RDSEC` = 1), the 1024-byte transfer buffer with cursor and length,
the two drives' mounted images (a `FILE *` becomes `Option` of the
image as a byte function), the drive-select latch `disksys_light` and
the rotational counter `tick`. -/
structure DiskState where
  trk : Nat
  sec : Nat
  dat : Nat
  stat : Nat
  mode : Nat
  buf : Nat → Nat
  bufptr : Nat
  buflen : Nat
  disk0 : Option (Nat → Nat)
  disk1 : Option (Nat → Nat)
  disksys_light : Nat
  tick : Nat

/-- Selected drive index `d = disksys_light - 1` computed in unsigned
32-bit arithmetic, as in `disksys_do` and `disksys_tick` (with
`disksys_light = 0` it wraps to 4294967295). -/
def drv (light : Nat) : Nat := (light + 4294967295) % 4294967296

/-- Access `disk[d]` for a drive index below 2. -/
def getDisk (s : DiskState) (d : Nat) : Option (Nat → Nat) :=
  if d = 0 then s.disk0 else s.disk1

/-- Out-of-band track-header template for a 200K floppy, from
`oob200` in `src/disk.c`. -/
def oob200 : Nat → Nat := fun i =>
  [0xA1, 0xA1, 0x4E, 0x4E, 0x4E, 0x4E, 0x4E, 0x4E,
   0x4E, 0x4E, 0x4E, 0x4E, 0x4E, 0x4E, 0x00, 0x00,
   0x00, 0x00, 0x00, 0x28, 0x00, 0x03, 0x07, 0x00,
   0xC2, 0x00, 0x5F, 0x00, 0xE0, 0x00, 0x00, 0x18,
   0x01, 0x00, 0x03, 0x07, 0x4E, 0xFB].getD i 0

/-- Command dispatch, from `disksys_do` in `src/disk.c`.  The result is
`none` when the C code would dereference an unmounted drive's NULL
`FILE *` (the 0x88 read-sector path does not check `disk[d]` before
`fseek`/`fread`), and `some` of the successor state otherwise.  Status
bit masks: 0x80 not-ready, 0x10 seek error, 0x02 data request, 0x01
busy; 8-bit complements are written `255 ^^^ m`. -/
def disksys_do (data : Nat) (s : DiskState) : Option DiskState :=
  if data = 0x07 ∨ data = 0x09 then
    some { s with trk := 0, stat := s.stat &&& (255 ^^^ (0x01 ||| 0x80)) }
  else if data = 0x59 then
    some { s with trk := (s.trk + 1) % 256 }
  else if data = 0x88 then
    let stat1 := s.stat &&& (255 ^^^ (0x80 ||| 0x10))
    let d := drv s.disksys_light
    if 2 ≤ d then
      some { s with stat := stat1 ||| 0x80 }
    else if s.sec = 0 ∨ 5 < s.sec then
      some { s with stat := stat1 ||| 0x10 }
    else
      match getDisk s d with
      | none => none
      | some img =>
        let off := (s.trk * 5 + (s.sec - 1)) <<< 10
        some { s with
          stat := stat1 ||| (0x02 ||| 0x01),
          bufptr := 0,
          buf := fun i => if i < 1024 then img (off + i) else s.buf i,
          mode := 1,
          buflen := 1024 }
  else if data = 0xC0 then
    some { s with
      buf := fun i =>
        if i = 0 then s.trk else if i = 1 then 0 else if i = 2 then s.sec
        else if i = 3 then 0x03 else if i = 4 then 0 else if i = 5 then 0
        else s.buf i,
      buflen := 6,
      mode := 1 }
  else if data = 0xD0 then
    some { s with stat := s.stat &&& (255 ^^^ (0x01 ||| 0x80)) }
  else if data = 0xE0 then
    some { s with
      buf := fun i => if i < 38 then oob200 i else s.buf i,
      bufptr := 0,
      buflen := 38,
      stat := s.stat ||| (0x02 ||| 0x01),
      mode := 1 }
  else some s

/-- Port read, from `disksys_read` in `src/disk.c`, returning the byte
and the successor state.  On the data port (low nibble 3) in transfer
mode, the read at `bufptr == buflen - 1` (an `int` comparison) leaves
the transfer: it clears data-request/busy, returns to mode 0 and falls
through to return the data register; otherwise it returns the next
buffered byte and advances the cursor. -/
def disksys_read (port : Nat) (s : DiskState) : Nat × DiskState :=
  match port &&& 0x0F with
  | 0x0 => (s.stat, s)
  | 0x1 => (s.trk, s)
  | 0x2 => (s.sec, s)
  | 0x3 =>
    if s.mode = 1 then
      if (s.bufptr : Int) = (s.buflen : Int) - 1 then
        (s.dat, { s with mode := 0, stat := s.stat &&& (255 ^^^ (0x02 ||| 0x01)) })
      else
        (s.buf s.bufptr, { s with bufptr := s.bufptr + 1 })
    else (s.dat, s)
  | 0xF => (0x10, s)
  | _ => (255, s)

/-- Iterate `k` reads of the data port, collecting the returned bytes. -/
def readDataN : Nat → DiskState → List Nat × DiskState
  | 0, s => ([], s)
  | n + 1, s =>
    let p := disksys_read 0x3 s
    let q := readDataN n p.2
    (p.1 :: q.1, q.2)

/-- Fuel-driven body of the loop `while (tick > 512) tick -= 512;` at
the top of `disksys_tick`; each iteration subtracts 512 ≥ 1, so `t`
units of fuel always suffice. -/
def tickNormAux : Nat → Nat → Nat
  | 0, t => t
  | fuel + 1, t => if 512 < t then tickNormAux fuel (t - 512) else t

/-- Normalization loop `while (tick > 512) tick -= 512;` at the top of
`disksys_tick`. -/
def tickNorm (t : Nat) : Nat := tickNormAux t t

/-- Periodic tick, from `disksys_tick` in `src/disk.c`: normalize the
rotational counter, and when no transfer is in progress clear the
index-pulse bit (0x02), setting it again when a drive below index 2 is
selected, holds an image and the counter is 0.  `stat2` is the status
byte after the clear; the per-path final states are written flat. -/
def disksys_tick (s : DiskState) : DiskState :=
  let t := tickNorm s.tick
  if s.mode = 0 then
    let d := drv s.disksys_light
    let stat2 := s.stat &&& (255 ^^^ 0x02)
    if d < 2 then
      match getDisk s d with
      | some _ =>
        if t = 0 then { s with tick := t, stat := stat2 ||| 0x02 }
        else { s with tick := t, stat := stat2 }
      | none => { s with tick := t, stat := stat2 }
    else { s with tick := t, stat := stat2 }
  else { s with tick := t }

/-- Watchdog step run at each scanline boundary, from the
`kick the dog` block of the scheduler loop (main.c v0.26e, threshold
`dog_speed`): returns whether 0x94 was pushed into the keyboard queue
and the new `next_watchdog` counter. -/
def watchdog_step (dog_speed : Nat) (empty : Bool) (c : Nat) : Bool × Nat :=
  if empty then
    if dog_speed ≤ c + 1 then (true, 0) else (false, c + 1)
  else (false, 0)

/-- Watchdog over a trace of per-scanline queue-empty observations:
the per-boundary push flags and the final counter. -/
def watchdog_run (dog_speed : Nat) : List Bool → Nat → List Bool × Nat
  | [], c => ([], c)
  | e :: es, c =>
    let p := watchdog_step dog_speed e c
    let q := watchdog_run dog_speed es p.2
    (p.1 :: q.1, q.2)

/-- Image used by the C3 witness and counterexample. -/
def imgW : Nat → Nat := fun i => i % 256

/-- Disk state used by the C3 witness and counterexample: drive A
selected (`disksys_light = 1`), `imgW` mounted in drive A, sector 1,
data register 7. -/
def c3s : DiskState :=
  ⟨0, 1, 7, 0, 0, fun _ => 0, 0, 0, some imgW, none, 1, 0⟩

/-- State after `disksys_do 0x88 c3s`: transfer active, 1024 bytes of
`imgW` from offset 0 in the buffer, cursor 0, data-request and busy
set. -/
def c3s1 : DiskState :=
  ⟨0, 1, 7, 3, 1, fun i => if i < 1024 then (0 + i) % 256 else 0, 0, 1024,
    some imgW, none, 1, 0⟩

/-- Disk state for the C4 failing input: drive A selected, sector 1 in
range, but no image mounted in drive A. -/
def c4s : DiskState :=
  ⟨0, 1, 0, 0, 0, fun _ => 0, 0, 0, none, none, 1, 0⟩

/-- Disk state used by the C9 counterexample and witness: track 2,
sector 3, data register 0x55, buffer cursor 0. -/
def c9s : DiskState :=
  ⟨2, 3, 0x55, 0, 0, fun _ => 0, 0, 0, none, none, 0, 0⟩

/-- State after `disksys_do 0xC0 c9s`: the six status bytes in the
buffer, length 6, transfer mode entered, cursor and status untouched. -/
def c9s1 : DiskState :=
  ⟨2, 3, 0x55, 0, 1,
    fun i => if i = 0 then 2 else if i = 1 then 0 else if i = 2 then 3
      else if i = 3 then 0x03 else if i = 4 then 0 else if i = 5 then 0 else 0,
    0, 6, none, none, 0, 0⟩

/-- Disk state used by the C10 witness: idle, drive A selected and
mounted, rotational counter 0. -/
def c10s : DiskState :=
  ⟨0, 0, 0, 255, 0, fun _ => 0, 0, 0, some (fun _ => 0), none, 1, 0⟩

/-- Memory state used by the C2 witness: constant RAM 1, ROM 2, control
register 0 (ROM enabled), 4K ROM. -/
def memW : MemState := ⟨fun _ => 1, fun _ => 2, 0, 4096⟩

/-- Interrupt state used by the C6 witness: keyboard line asserted,
enable mask all zero. -/
def intW : IntState := ⟨true, true, true, false, 0, 0, 0, 0, false, 0⟩

/-- Claim C1: with the external-enable input inactive and the
all-inputs-equal saturation branch not taken, the encoder outputs the
3-bit code of the first low input found scanning from bit 7 down to
bit 0 (bit7 → 0, ..., bit0 → 7); in particular when bit 0 is the only
low input all three code outputs Q0, Q1, Q2 are set to 1 (code 7). -/
theorem C1_encoder_first_low_code (I0 I1 I2 I3 I4 I5 I6 I7 : Bool)
    (h : (I0 && I1 && I2 && I3 && I4 && I5 && I6 && I7) = false) :
    encCode (int_prio_enc false I0 I1 I2 I3 I4 I5 I6 I7) =
      firstLowBitCode I0 I1 I2 I3 I4 I5 I6 I7 ∧
    ((I0 = false ∧ I1 = true ∧ I2 = true ∧ I3 = true ∧ I4 = true ∧
      I5 = true ∧ I6 = true ∧ I7 = true) →
      (int_prio_enc false I0 I1 I2 I3 I4 I5 I6 I7).Q0 = true ∧
      (int_prio_enc false I0 I1 I2 I3 I4 I5 I6 I7).Q1 = true ∧
      (int_prio_enc false I0 I1 I2 I3 I4 I5 I6 I7).Q2 = true) := by
  revert h
  cases I0 <;> cases I1 <;> cases I2 <;> cases I3 <;>
    cases I4 <;> cases I5 <;> cases I6 <;> cases I7 <;> decide

/-- Witness for C1 at the input where bit 0 is the only low input. -/
theorem C1_encoder_first_low_code_witness :
    ((false && true && true && true && true && true && true && true) = false) ∧
    (encCode (int_prio_enc false false true true true true true true true) =
      firstLowBitCode false true true true true true true true ∧
    ((false = false ∧ true = true ∧ true = true ∧ true = true ∧ true = true ∧
      true = true ∧ true = true ∧ true = true) →
      (int_prio_enc false false true true true true true true true).Q0 = true ∧
      (int_prio_enc false false true true true true true true true).Q1 = true ∧
      (int_prio_enc false false true true true true true true true).Q2 = true)) :=
  ⟨by decide,
   C1_encoder_first_low_code false true true true true true true true (by decide)⟩

/-- Claim C2: reads return ROM exactly below `romsize` with the
ROM-disable bit clear and RAM otherwise; writes always update RAM and
never touch ROM. -/
theorem C2_memory_bus (m : MemState) (a v : Nat) :
    (m.ctrlreg &&& 0x01 = 0 → a < m.romsize → mem_read m a = m.ROM a) ∧
    (¬(m.ctrlreg &&& 0x01 = 0 ∧ a < m.romsize) → mem_read m a = m.RAM a) ∧
    (mem_write m a v).RAM a = v ∧
    (∀ b, b ≠ a → (mem_write m a v).RAM b = m.RAM b) ∧
    (mem_write m a v).ROM = m.ROM := by
  refine ⟨fun h1 h2 => ?_, fun h => ?_, ?_, fun b hb => ?_, rfl⟩
  · simp [mem_read, h1, h2]
  · simp only [mem_read, if_neg h]
  · simp [mem_write]
  · simp [mem_write, hb]

/-- Witness for C2 at address 3, value 7 on `memW`. -/
theorem C2_memory_bus_witness :
    (memW.ctrlreg &&& 0x01 = 0 ∧ (3 : Nat) < memW.romsize) ∧
    (mem_read memW 3 = memW.ROM 3 ∧ (mem_write memW 3 7).RAM 3 = 7 ∧
      (mem_write memW 3 7).ROM = memW.ROM) :=
  ⟨⟨by decide, by decide⟩,
   (C2_memory_bus memW 3 7).1 (by decide) (by decide),
   (C2_memory_bus memW 3 7).2.2.1,
   (C2_memory_bus memW 3 7).2.2.2.2⟩

/-- Claim C5 is false on the code: with all 8 inputs at logic 0 (all
asserted under the active-low convention) and external enable inactive,
the encoder does not saturate; it reports the bit-7 code instead. -/
theorem C5_counterexample :
    ¬(int_prio_enc false false false false false false false false false =
        ⟨true, true, true, true, false⟩) := by
  decide

/-- Claim C5 amended: the saturation branch fires when all 8 inputs are
at logic 1, i.e. when no input is asserted under the active-low
convention; then group select and Q0..Q2 are all set and the error
output is cleared. -/
theorem C5_saturation_all_high :
    int_prio_enc false true true true true true true true true =
      ⟨true, true, true, true, false⟩ := by
  decide

theorem testBit_set_or_clear (b : Bool) (k x n : Nat) (hk : k < 8) :
    (set_or_clear b (2 ^ k) x).testBit n =
      if n = k then b else (x.testBit n && (b || decide (n < 8))) := by
  have h255 : (255 : Nat) = 2 ^ 8 - 1 := by norm_num
  cases b with
  | false =>
    have h1 : set_or_clear false (2 ^ k) x = x &&& (255 ^^^ 2 ^ k) := rfl
    rw [h1, h255, Nat.testBit_and, Nat.testBit_xor, Nat.testBit_two_pow_sub_one,
      Nat.testBit_two_pow]
    by_cases hn : n = k
    · subst hn
      simp [hk]
    · have hkn : ¬k = n := fun h => hn h.symm
      simp [hn, hkn]
  | true =>
    have h1 : set_or_clear true (2 ^ k) x = x ||| 2 ^ k := rfl
    rw [h1, Nat.testBit_or, Nat.testBit_two_pow]
    by_cases hn : n = k
    · subst hn
      simp
    · have hkn : ¬k = n := fun h => hn h.symm
      simp [hn, hkn]

theorem merge_lines_testBit (r t k v : Bool) (x n : Nat) :
    (merge_lines r t k v x).testBit n =
      if n = 4 then v else if n = 5 then k else if n = 6 then t else if n = 7 then r
      else (x.testBit n && (decide (n < 8) || (r && t && k && v))) := by
  have e4 : (0x10 : Nat) = 2 ^ 4 := by norm_num
  have e5 : (0x20 : Nat) = 2 ^ 5 := by norm_num
  have e6 : (0x40 : Nat) = 2 ^ 6 := by norm_num
  have e7 : (0x80 : Nat) = 2 ^ 7 := by norm_num
  simp only [merge_lines]
  rw [e4, e5, e6, e7, testBit_set_or_clear v 4 _ n (by norm_num)]
  by_cases h4 : n = 4
  · simp [h4]
  · rw [if_neg h4, testBit_set_or_clear k 5 _ n (by norm_num)]
    by_cases h5 : n = 5
    · subst h5
      simp
    · rw [if_neg h5, testBit_set_or_clear t 6 _ n (by norm_num)]
      by_cases h6 : n = 6
      · subst h6
        simp
      · rw [if_neg h6, testBit_set_or_clear r 7 _ n (by norm_num)]
        by_cases h7 : n = 7
        · subst h7
          simp
        · rw [if_neg h7]
          simp only [if_neg h4, if_neg h5, if_neg h6, if_neg h7]
          by_cases h8 : n < 8
          · simp [h8]
          · simp only [h8]
            cases x.testBit n <;> cases r <;> cases t <;> cases k <;> cases v <;> simp

theorem merge_lines_idem (r t k v : Bool) (x : Nat) :
    merge_lines r t k v (merge_lines r t k v x) = merge_lines r t k v x := by
  apply Nat.eq_of_testBit_eq
  intro n
  rw [merge_lines_testBit, merge_lines_testBit]
  by_cases h4 : n = 4
  · simp [h4]
  · by_cases h5 : n = 5
    · simp [h5]
    · by_cases h6 : n = 6
      · simp [h6]
      · by_cases h7 : n = 7
        · simp [h7]
        · simp only [if_neg h4, if_neg h5, if_neg h6, if_neg h7]
          cases x.testBit n <;> cases (decide (n < 8) || (r && t && k && v)) <;> rfl

theorem int_prio_enc_alt_congr (EI : Bool) (v w : Nat)
    (h : ∀ n, n < 8 → v.testBit n = w.testBit n) :
    int_prio_enc_alt EI v = int_prio_enc_alt EI w := by
  unfold int_prio_enc_alt
  rw [h 0 (by norm_num), h 1 (by norm_num), h 2 (by norm_num), h 3 (by norm_num),
    h 4 (by norm_num), h 5 (by norm_num), h 6 (by norm_num), h 7 (by norm_num)]

theorem update_interrupts_eq (s : IntState) :
    update_interrupts s =
      { s with
        interrupts := merge_lines s.hccarint s.hccatint s.keybdint s.vdpint s.interrupts,
        psg_portb := portb_new s,
        psgReg15 := portb_new s,
        int_pending := !(encOf s).GS,
        int_data := portb_new s &&& 0x0E } := rfl

theorem or_and_absorb (a l m : Nat) :
    (((a &&& m) ||| l) &&& m) ||| l = (a &&& m) ||| l := by
  apply Nat.eq_of_testBit_eq
  intro n
  simp only [Nat.testBit_or, Nat.testBit_and]
  cases a.testBit n <;> cases l.testBit n <;> cases m.testBit n <;> rfl

theorem upd_hccar (s : IntState) : (update_interrupts s).hccarint = s.hccarint := rfl

theorem upd_hccat (s : IntState) : (update_interrupts s).hccatint = s.hccatint := rfl

theorem upd_keybd (s : IntState) : (update_interrupts s).keybdint = s.keybdint := rfl

theorem upd_vdp (s : IntState) : (update_interrupts s).vdpint = s.vdpint := rfl

theorem upd_interrupts (s : IntState) :
    (update_interrupts s).interrupts =
      merge_lines s.hccarint s.hccatint s.keybdint s.vdpint s.interrupts := rfl

theorem upd_porta (s : IntState) : (update_interrupts s).psg_porta = s.psg_porta := rfl

theorem upd_portb (s : IntState) : (update_interrupts s).psg_portb = portb_new s := rfl

theorem upd_reg15 (s : IntState) : (update_interrupts s).psgReg15 = portb_new s := rfl

theorem upd_pending (s : IntState) :
    (update_interrupts s).int_pending = !(encOf s).GS := rfl

theorem upd_data (s : IntState) :
    (update_interrupts s).int_data = portb_new s &&& 0x0E := rfl

theorem setLine_psg_porta (l : Line) (b : Bool) (s : IntState) :
    (setLine l b s).psg_porta = s.psg_porta := by cases l <;> rfl

theorem setLine_psg_portb (l : Line) (b : Bool) (s : IntState) :
    (setLine l b s).psg_portb = s.psg_portb := by cases l <;> rfl

theorem IntState_ext (u v : IntState)
    (h1 : u.hccarint = v.hccarint) (h2 : u.hccatint = v.hccatint)
    (h3 : u.keybdint = v.keybdint) (h4 : u.vdpint = v.vdpint)
    (h5 : u.interrupts = v.interrupts) (h6 : u.psg_porta = v.psg_porta)
    (h7 : u.psg_portb = v.psg_portb) (h8 : u.psgReg15 = v.psgReg15)
    (h9 : u.int_pending = v.int_pending) (h10 : u.int_data = v.int_data) :
    u = v := by
  cases u
  cases v
  simp_all

theorem encOf_update (s : IntState) : encOf (update_interrupts s) = encOf s := by
  unfold encOf int_prio_word
  rw [upd_hccar, upd_hccat, upd_keybd, upd_vdp, upd_interrupts, upd_porta,
    merge_lines_idem]

theorem portb_new_update (s : IntState) :
    portb_new (update_interrupts s) = portb_new s := by
  unfold portb_new
  rw [upd_portb, encOf_update]
  unfold portb_new
  exact or_and_absorb _ _ _

/-- Claim C7: the interrupt recompute is idempotent; a second
`update_interrupts` with unchanged inputs reproduces the same state
bit for bit, including the status byte written to PSG register 15
(port B) and the request latched at the CPU (no re-assertion). -/
theorem C7_recompute_idempotent (s : IntState) :
    update_interrupts (update_interrupts s) = update_interrupts s := by
  apply IntState_ext
  · rw [upd_hccar, upd_hccar]
  · rw [upd_hccat, upd_hccat]
  · rw [upd_keybd, upd_keybd]
  · rw [upd_vdp, upd_vdp]
  · simp only [upd_interrupts, upd_hccar, upd_hccat, upd_keybd, upd_vdp,
      merge_lines_idem]
  · rw [upd_porta, upd_porta]
  · rw [upd_portb, upd_portb, portb_new_update]
  · rw [upd_reg15, upd_reg15, portb_new_update]
  · rw [upd_pending, upd_pending, encOf_update]
  · rw [upd_data, upd_data, portb_new_update]

/-- Claim C6: a line whose enable-mask bit (PSG port A) is clear never
reaches the encoder: the recompute yields the same encoder output,
the same port B status byte (and PSG register 15 write) and the same
CPU-interrupt decision as it would with that line's level cleared,
whatever the line's level is. -/
theorem C6_masked_line (s : IntState) (l : Line)
    (h : s.psg_porta.testBit (lineBit l) = false) :
    encOf s = encOf (setLine l false s) ∧
    (update_interrupts s).psg_portb = (update_interrupts (setLine l false s)).psg_portb ∧
    (update_interrupts s).psgReg15 = (update_interrupts (setLine l false s)).psgReg15 ∧
    (update_interrupts s).int_pending = (update_interrupts (setLine l false s)).int_pending ∧
    (update_interrupts s).int_data = (update_interrupts (setLine l false s)).int_data := by
  have henc : encOf s = encOf (setLine l false s) := by
    unfold encOf int_prio_word
    apply int_prio_enc_alt_congr
    intro n hn
    cases l with
    | hccar =>
      simp only [lineBit] at h
      simp only [setLine]
      rw [Nat.testBit_xor, Nat.testBit_xor, Nat.testBit_and, Nat.testBit_and,
        merge_lines_testBit, merge_lines_testBit]
      by_cases hb : n = 7
      · subst hb
        simp [h]
      · simp [hb, hn]
    | hccat =>
      simp only [lineBit] at h
      simp only [setLine]
      rw [Nat.testBit_xor, Nat.testBit_xor, Nat.testBit_and, Nat.testBit_and,
        merge_lines_testBit, merge_lines_testBit]
      by_cases hb : n = 6
      · subst hb
        simp [h]
      · simp [hb, hn]
    | keybd =>
      simp only [lineBit] at h
      simp only [setLine]
      rw [Nat.testBit_xor, Nat.testBit_xor, Nat.testBit_and, Nat.testBit_and,
        merge_lines_testBit, merge_lines_testBit]
      by_cases hb : n = 5
      · subst hb
        simp [h]
      · simp [hb, hn]
    | vdp =>
      simp only [lineBit] at h
      simp only [setLine]
      rw [Nat.testBit_xor, Nat.testBit_xor, Nat.testBit_and, Nat.testBit_and,
        merge_lines_testBit, merge_lines_testBit]
      by_cases hb : n = 4
      · subst hb
        simp [h]
      · simp [hb, hn]
  have hpb : portb_new s = portb_new (setLine l false s) := by
    unfold portb_new
    rw [setLine_psg_portb, ← henc]
  refine ⟨henc, ?_, ?_, ?_, ?_⟩
  · rw [upd_portb, upd_portb]
    exact hpb
  · rw [upd_reg15, upd_reg15]
    exact hpb
  · rw [upd_pending, upd_pending, henc]
  · rw [upd_data, upd_data, hpb]

/-- Witness for C6 on `intW` with the keyboard line. -/
theorem C6_masked_line_witness :
    intW.psg_porta.testBit (lineBit Line.keybd) = false ∧
    encOf intW = encOf (setLine Line.keybd false intW) :=
  ⟨by decide, (C6_masked_line intW Line.keybd (by decide)).1⟩

theorem testBit_or_ground (x m n : Nat) (h : m.testBit n = true) :
    (x ||| m).testBit n = true := by
  rw [Nat.testBit_or, h, Bool.or_true]

theorem testBit_and_ground (x m n : Nat) (h : m.testBit n = false) :
    (x &&& m).testBit n = false := by
  rw [Nat.testBit_and, h, Bool.and_false]

theorem readDataN_add (m n : Nat) (s : DiskState) :
    readDataN (m + n) s =
      ((readDataN m s).1 ++ (readDataN n (readDataN m s).2).1,
        (readDataN n (readDataN m s).2).2) := by
  induction m generalizing s with
  | zero => simp [readDataN]
  | succ m ih =>
    have hmn : m + 1 + n = (m + n) + 1 := by omega
    rw [hmn]
    simp only [readDataN]
    rw [ih]
    simp

theorem disksys_read3_next (s : DiskState) (hm : s.mode = 1)
    (hp : (s.bufptr : Int) ≠ (s.buflen : Int) - 1) :
    disksys_read 0x3 s = (s.buf s.bufptr, { s with bufptr := s.bufptr + 1 }) := by
  simp [disksys_read, hm, hp]

theorem disksys_read3_last (s : DiskState) (hm : s.mode = 1)
    (hp : (s.bufptr : Int) = (s.buflen : Int) - 1) :
    disksys_read 0x3 s =
      (s.dat, { s with mode := 0, stat := s.stat &&& (255 ^^^ (0x02 ||| 0x01)) }) := by
  simp [disksys_read, hm, hp]

theorem readDataN_stream (k : Nat) : ∀ s : DiskState, s.mode = 1 →
    s.bufptr + k + 1 ≤ s.buflen →
    readDataN k s =
      ((List.range k).map (fun j => s.buf (s.bufptr + j)),
        { s with bufptr := s.bufptr + k }) := by
  induction k with
  | zero =>
    intro s hm hk
    simp [readDataN]
  | succ k ih =>
    intro s hm hk
    have hp : (s.bufptr : Int) ≠ (s.buflen : Int) - 1 := by omega
    simp only [readDataN, disksys_read3_next s hm hp]
    rw [ih { s with bufptr := s.bufptr + 1 } hm (by simp; omega)]
    refine Prod.ext ?_ ?_
    · show s.buf s.bufptr :: (List.range k).map (fun j => s.buf (s.bufptr + 1 + j)) =
        (List.range (k + 1)).map (fun j => s.buf (s.bufptr + j))
      rw [List.range_succ_eq_map, List.map_cons, List.map_map]
      refine congrArg₂ _ (by rw [Nat.add_zero]) ?_
      apply List.map_congr_left
      intro j _
      show s.buf (s.bufptr + 1 + j) = s.buf (s.bufptr + (j + 1))
      congr 1
      omega
    · show ({ s with bufptr := s.bufptr + 1 + k } : DiskState) =
        { s with bufptr := s.bufptr + (k + 1) }
      congr 1
      omega

theorem readDataN_full (s : DiskState) (hm : s.mode = 1) (hp : s.bufptr = 0)
    (hl : s.buflen = 1024) :
    readDataN 1024 s =
      ((List.range 1023).map s.buf ++ [s.dat],
        { s with
          bufptr := 1023,
          mode := 0,
          stat := s.stat &&& (255 ^^^ (0x02 ||| 0x01)) }) := by
  rw [show (1024 : Nat) = 1023 + 1 from rfl, readDataN_add,
    readDataN_stream 1023 s hm (by omega)]
  rw [show ∀ u : DiskState, readDataN 1 u =
      ((disksys_read 0x3 u).1 :: [], (disksys_read 0x3 u).2) from fun u => rfl]
  rw [disksys_read3_last { s with bufptr := s.bufptr + 1023 } hm (by simp; omega)]
  refine Prod.ext ?_ ?_
  · dsimp only
    refine congrArg₂ _ ?_ rfl
    apply List.map_congr_left
    intro j _
    rw [hp, Nat.zero_add]
  · dsimp only
    congr 1
    omega

/-- Claim C3 amended: after a successful READ-SECTOR of length 1024,
reads of the data port while the transfer is active return the next
buffered byte and advance the cursor only up to the 1023rd byte; the
1024th read finds the cursor at `buflen - 1`, flips the controller back
to Idle, clears data-request and busy, and returns the data register,
so the final buffered byte is never delivered.  After exactly 1024
data-port reads the controller is in Idle with data-request and busy
clear. -/
theorem C3_read_sector_transfer (s : DiskState) (img : Nat → Nat)
    (hd : drv s.disksys_light < 2)
    (hmount : getDisk s (drv s.disksys_light) = some img)
    (hs1 : 1 ≤ s.sec) (hs5 : s.sec ≤ 5) :
    disksys_do 0x88 s ≠ none ∧
    ∀ s1, disksys_do 0x88 s = some s1 →
      s1.mode = 1 ∧ s1.bufptr = 0 ∧ s1.buflen = 1024 ∧
      s1.stat.testBit 1 = true ∧ s1.stat.testBit 0 = true ∧
      (readDataN 1024 s1).1 =
        (List.range 1023).map
          (fun j => img ((s.trk * 5 + (s.sec - 1)) <<< 10 + j)) ++ [s.dat] ∧
      (readDataN 1024 s1).2.mode = 0 ∧
      (readDataN 1024 s1).2.stat.testBit 1 = false ∧
      (readDataN 1024 s1).2.stat.testBit 0 = false := by
  have hdo : disksys_do 0x88 s = some { s with
      stat := (s.stat &&& (255 ^^^ (0x80 ||| 0x10))) ||| (0x02 ||| 0x01),
      bufptr := 0,
      buf := fun i => if i < 1024 then img ((s.trk * 5 + (s.sec - 1)) <<< 10 + i)
        else s.buf i,
      mode := 1,
      buflen := 1024 } := by
    unfold disksys_do
    rw [if_neg (by norm_num), if_neg (by norm_num), if_pos rfl,
      if_neg (by omega), if_neg (by omega), hmount]
  refine ⟨by rw [hdo]; simp, ?_⟩
  intro s1 h1
  rw [hdo] at h1
  have h2 := Option.some.inj h1
  subst h2
  have hfull := readDataN_full { s with
      stat := (s.stat &&& (255 ^^^ (0x80 ||| 0x10))) ||| (0x02 ||| 0x01),
      bufptr := 0,
      buf := fun i => if i < 1024 then img ((s.trk * 5 + (s.sec - 1)) <<< 10 + i)
        else s.buf i,
      mode := 1,
      buflen := 1024 } rfl rfl rfl
  refine ⟨rfl, rfl, rfl, ?_, ?_, ?_, ?_, ?_, ?_⟩
  · exact testBit_or_ground _ _ _ (by decide)
  · exact testBit_or_ground _ _ _ (by decide)
  · rw [hfull]
    dsimp only
    refine congrArg₂ _ ?_ rfl
    apply List.map_congr_left
    intro j hj
    have hj1 : j < 1023 := List.mem_range.mp hj
    rw [if_pos (by omega)]
  · rw [hfull]
  · rw [hfull]
    dsimp only
    exact testBit_and_ground _ _ _ (by decide)
  · rw [hfull]
    dsimp only
    exact testBit_and_ground _ _ _ (by decide)

/-- Witness for C3: a concrete mounted drive, sector 1. -/
theorem C3_read_sector_transfer_witness :
    (drv c3s.disksys_light < 2 ∧
      getDisk c3s (drv c3s.disksys_light) = some imgW ∧
      1 ≤ c3s.sec ∧ c3s.sec ≤ 5) ∧
    disksys_do 0x88 c3s ≠ none :=
  ⟨⟨by decide, rfl, by decide, by decide⟩,
   (C3_read_sector_transfer c3s imgW (by decide) rfl (by decide) (by decide)).1⟩

/-- Counterexample for C3 as stated: in the transfer set up by
`disksys_do 0x88 c3s` (1024 bytes of `imgW`, data register 7), the
1024th data-port read happens with the cursor at 1023, returns the
data register 7 instead of the final buffered byte 255, and does not
advance the cursor — the final buffered byte is never delivered. -/
theorem C3_counterexample :
    disksys_do 0x88 c3s = some c3s1 ∧
    (readDataN 1023 c3s1).2.bufptr = 1023 ∧
    (disksys_read 0x3 (readDataN 1023 c3s1).2).1 = 7 ∧
    (readDataN 1023 c3s1).2.buf ((readDataN 1023 c3s1).2.bufptr) = 255 ∧
    (7 : Nat) ≠ 255 := by
  have hs := readDataN_stream 1023 c3s1 rfl (by decide)
  refine ⟨rfl, ?_, ?_, ?_, by decide⟩
  · rw [hs]
    decide
  · rw [hs, disksys_read3_last _ rfl (by decide)]
    decide
  · rw [hs]
    decide

/-- Claim C4 is a code bug: `disksys_do` case 0x88 checks the drive
index and the sector register but never checks that `disk[d]` is
non-NULL; with drive A selected, nothing mounted and a valid sector,
the C code calls `fseek`/`fread` on a NULL `FILE *` (modelled as
`none`) instead of setting the not-ready status bit and skipping the
transfer. -/
theorem C4_unchecked_mount :
    drv c4s.disksys_light < 2 ∧ 1 ≤ c4s.sec ∧ c4s.sec ≤ 5 ∧
    getDisk c4s (drv c4s.disksys_light) = none ∧
    disksys_do 0x88 c4s = none :=
  ⟨by decide, by decide, by decide, rfl, rfl⟩

/-- Claim C9 amended: READ-STATUS (0xC0) writes the six status bytes
{track, 0, sector, 0x03, 0, 0} into the buffer, sets the length to 6
and enters transfer mode, but leaves the buffer cursor and the status
register (hence data-request/busy) unchanged.  Even when the cursor was
already 0, the six following data-port reads return only the first
five status bytes; the sixth read returns the data register and flips
the controller back to Idle with data-request/busy cleared, so the
sixth status byte (the second CRC zero) is never delivered. -/
theorem C9_read_status (s : DiskState) :
    disksys_do 0xC0 s ≠ none ∧
    ∀ s1, disksys_do 0xC0 s = some s1 →
      s1.buflen = 6 ∧ s1.mode = 1 ∧ s1.bufptr = s.bufptr ∧ s1.stat = s.stat ∧
      s1.buf 0 = s.trk ∧ s1.buf 1 = 0 ∧ s1.buf 2 = s.sec ∧ s1.buf 3 = 0x03 ∧
      s1.buf 4 = 0 ∧ s1.buf 5 = 0 ∧
      (s.bufptr = 0 →
        (readDataN 6 s1).1 = [s.trk, 0, s.sec, 0x03, 0, s.dat] ∧
        (readDataN 6 s1).2.mode = 0 ∧
        (readDataN 6 s1).2.stat.testBit 1 = false ∧
        (readDataN 6 s1).2.stat.testBit 0 = false) := by
  have hdo : disksys_do 0xC0 s = some { s with
      buf := fun i => if i = 0 then s.trk else if i = 1 then 0 else if i = 2 then s.sec
        else if i = 3 then 0x03 else if i = 4 then 0 else if i = 5 then 0
        else s.buf i,
      buflen := 6,
      mode := 1 } := by
    unfold disksys_do
    rw [if_neg (by norm_num), if_neg (by norm_num), if_neg (by norm_num), if_pos rfl]
  refine ⟨by rw [hdo]; simp, ?_⟩
  intro s1 h1
  rw [hdo] at h1
  have h2 := Option.some.inj h1
  subst h2
  refine ⟨rfl, rfl, rfl, rfl, rfl, rfl, rfl, rfl, rfl, rfl, ?_⟩
  intro hp
  have hstream := readDataN_stream 5 { s with
      buf := fun i => if i = 0 then s.trk else if i = 1 then 0 else if i = 2 then s.sec
        else if i = 3 then 0x03 else if i = 4 then 0 else if i = 5 then 0
        else s.buf i,
      buflen := 6,
      mode := 1 } rfl (by simp [hp])
  have hone : ∀ u : DiskState, readDataN 1 u =
      ((disksys_read 0x3 u).1 :: [], (disksys_read 0x3 u).2) := fun u => rfl
  rw [show (6 : Nat) = 5 + 1 from rfl, readDataN_add, hstream, hone]
  dsimp only
  rw [disksys_read3_last _ rfl (by simp [hp])]
  refine ⟨?_, rfl, ?_, ?_⟩
  · dsimp only
    rw [show List.range 5 = [0, 1, 2, 3, 4] from rfl]
    simp [hp]
  · dsimp only
    exact testBit_and_ground _ _ _ (by decide)
  · dsimp only
    exact testBit_and_ground _ _ _ (by decide)

/-- Witness for C9 at `c9s` (cursor already 0). -/
theorem C9_read_status_witness :
    disksys_do 0xC0 c9s ≠ none ∧
    (c9s.bufptr = 0 ∧
      (readDataN 6 c9s1).1 = [c9s.trk, 0, c9s.sec, 0x03, 0, c9s.dat]) :=
  ⟨(C9_read_status c9s).1,
   by decide,
   ((C9_read_status c9s).2 c9s1 rfl).2.2.2.2.2.2.2.2.2.2 rfl |>.1⟩

/-- Counterexample for C9 as stated: with the buffer cursor already 0
when READ-STATUS is issued (state `c9s`, data register 0x55), the six
data-port reads return [2, 0, 3, 3, 0, 0x55], not the six synthesized
status bytes [2, 0, 3, 3, 0, 0] — the sixth read returns the data
register instead of the last status byte. -/
theorem C9_counterexample :
    disksys_do 0xC0 c9s = some c9s1 ∧ c9s.bufptr = 0 ∧
    (readDataN 6 c9s1).1 ≠ [c9s.trk, 0, c9s.sec, 0x03, 0, 0] := by
  refine ⟨rfl, rfl, ?_⟩
  decide

theorem disksys_tick_eq (s : DiskState) (ht : s.tick = 0) :
    disksys_tick s =
      if s.mode = 0 then
        (if drv s.disksys_light < 2 ∧ (getDisk s (drv s.disksys_light)).isSome = true
         then { s with stat := (s.stat &&& (255 ^^^ 0x02)) ||| 0x02 }
         else { s with stat := s.stat &&& (255 ^^^ 0x02) })
      else s := by
  unfold disksys_tick
  rw [ht]
  rw [show tickNorm 0 = 0 from rfl]
  dsimp only
  by_cases hm : s.mode = 0
  · rw [if_pos hm, if_pos hm]
    by_cases hd : drv s.disksys_light < 2
    · rw [if_pos hd]
      rcases hgd : getDisk s (drv s.disksys_light) with _ | img
      · dsimp only
        rw [if_neg (fun h => by simp at h)]
      · dsimp only
        rw [if_pos rfl, if_pos ⟨hd, rfl⟩]
    · rw [if_neg hd, if_neg (fun h => hd h.1)]
  · rw [if_neg hm, if_neg hm, ← ht]

theorem disksys_do_tick_all (b : Nat) (s : DiskState) :
    (disksys_do b s).elim True (fun s1 => s1.tick = s.tick) := by
  by_cases h1 : b = 0x07 ∨ b = 0x09
  · unfold disksys_do
    rw [if_pos h1]
    exact rfl
  · by_cases h2 : b = 0x59
    · unfold disksys_do
      rw [if_neg h1, if_pos h2]
      exact rfl
    · by_cases h3 : b = 0x88
      · by_cases h4 : 2 ≤ drv s.disksys_light
        · unfold disksys_do
          rw [if_neg h1, if_neg h2, if_pos h3, if_pos h4]
          exact rfl
        · by_cases h5 : s.sec = 0 ∨ 5 < s.sec
          · unfold disksys_do
            rw [if_neg h1, if_neg h2, if_pos h3, if_neg h4, if_pos h5]
            exact rfl
          · rcases hgd : getDisk s (drv s.disksys_light) with _ | img
            · unfold disksys_do
              rw [if_neg h1, if_neg h2, if_pos h3, if_neg h4, if_neg h5, hgd]
              exact trivial
            · unfold disksys_do
              rw [if_neg h1, if_neg h2, if_pos h3, if_neg h4, if_neg h5, hgd]
              exact rfl
      · by_cases h6 : b = 0xC0
        · unfold disksys_do
          rw [if_neg h1, if_neg h2, if_neg h3, if_pos h6]
          exact rfl
        · by_cases h7 : b = 0xD0
          · unfold disksys_do
            rw [if_neg h1, if_neg h2, if_neg h3, if_neg h6, if_pos h7]
            exact rfl
          · by_cases h8 : b = 0xE0
            · unfold disksys_do
              rw [if_neg h1, if_neg h2, if_neg h3, if_neg h6, if_neg h7, if_pos h8]
              exact rfl
            · unfold disksys_do
              rw [if_neg h1, if_neg h2, if_neg h3, if_neg h6, if_neg h7, if_neg h8]
              exact rfl

theorem disksys_do_tick (b : Nat) (s s1 : DiskState)
    (h : disksys_do b s = some s1) : s1.tick = s.tick := by
  have hall := disksys_do_tick_all b s
  rw [h] at hall
  exact hall

set_option maxHeartbeats 1000000 in
set_option maxRecDepth 8000 in
/-- Claim C10: with the rotational counter at 0 (it is never advanced
by any disk-system operation), a tick while a transfer is active
changes nothing; a tick while idle sets the index-pulse status bit
(0x02) exactly when the selected drive index is below 2 and that drive
holds an image, clears it otherwise, and leaves every other status bit
and all other controller state unchanged.  The final conjuncts show
the counter stays 0 across data-port reads, commands and ticks. -/
theorem C10_tick_frame (s : DiskState) (ht : s.tick = 0) :
    (s.mode ≠ 0 → disksys_tick s = s) ∧
    (s.mode = 0 →
      (disksys_tick s).stat.testBit 1 =
        (decide (drv s.disksys_light < 2) &&
          (getDisk s (drv s.disksys_light)).isSome) ∧
      (∀ n, n < 8 → n ≠ 1 → (disksys_tick s).stat.testBit n = s.stat.testBit n) ∧
      (disksys_tick s).trk = s.trk ∧ (disksys_tick s).sec = s.sec ∧
      (disksys_tick s).dat = s.dat ∧ (disksys_tick s).mode = s.mode ∧
      (disksys_tick s).buf = s.buf ∧ (disksys_tick s).bufptr = s.bufptr ∧
      (disksys_tick s).buflen = s.buflen ∧ (disksys_tick s).disk0 = s.disk0 ∧
      (disksys_tick s).disk1 = s.disk1 ∧
      (disksys_tick s).disksys_light = s.disksys_light) ∧
    (disksys_tick s).tick = 0 ∧
    (∀ p, (disksys_read p s).2.tick = s.tick) ∧
    (∀ b s1, disksys_do b s = some s1 → s1.tick = s.tick) := by
  have h253 : ∀ n, n < 8 → n ≠ 1 → ((255 : Nat) ^^^ 0x02).testBit n = true := by
    intro n h8 h1
    interval_cases n <;> first | (exact absurd rfl h1) | decide
  have h2bit : ∀ n, n ≠ 1 → (0x02 : Nat).testBit n = false := by
    intro n h1
    rw [show (0x02 : Nat) = 2 ^ 1 by norm_num, Nat.testBit_two_pow]
    exact decide_eq_false fun h => h1 h.symm
  refine ⟨?_, ?_, ?_, ?_, ?_⟩
  · intro hm
    rw [disksys_tick_eq s ht, if_neg hm]
  · intro hm
    rw [disksys_tick_eq s ht, if_pos hm]
    by_cases hd : drv s.disksys_light < 2
    · rcases hgd : getDisk s (drv s.disksys_light) with _ | img
      · rw [if_neg (fun h => by simp at h)]
        refine ⟨?_, ?_, rfl, rfl, rfl, rfl, rfl, rfl, rfl, rfl, rfl, rfl⟩
        · simp only [Option.isSome_none, Bool.and_false]
          exact testBit_and_ground _ _ _ (by decide)
        · intro n h8 h1
          dsimp only
          rw [Nat.testBit_and, h253 n h8 h1, Bool.and_true]
      · rw [if_pos ⟨hd, rfl⟩]
        refine ⟨?_, ?_, rfl, rfl, rfl, rfl, rfl, rfl, rfl, rfl, rfl, rfl⟩
        · simp only [Option.isSome_some, Bool.and_true, decide_eq_true hd]
          exact testBit_or_ground _ _ _ (by decide)
        · intro n h8 h1
          dsimp only
          rw [Nat.testBit_or, Nat.testBit_and, h253 n h8 h1, Bool.and_true,
            h2bit n h1, Bool.or_false]
    · rw [if_neg (fun h => hd h.1)]
      refine ⟨?_, ?_, rfl, rfl, rfl, rfl, rfl, rfl, rfl, rfl, rfl, rfl⟩
      · rw [decide_eq_false hd, Bool.false_and]
        exact testBit_and_ground _ _ _ (by decide)
      · intro n h8 h1
        dsimp only
        rw [Nat.testBit_and, h253 n h8 h1, Bool.and_true]
  · rw [disksys_tick_eq s ht]
    split_ifs <;> exact ht
  · intro p
    unfold disksys_read
    split <;> first | rfl | (split_ifs <;> rfl)
  · intro b s1 h
    exact disksys_do_tick b s s1 h

/-- Witness for C10 on `c10s`: idle, drive A selected and mounted. -/
theorem C10_tick_frame_witness :
    c10s.tick = 0 ∧ c10s.mode = 0 ∧
    (disksys_tick c10s).stat.testBit 1 =
      (decide (drv c10s.disksys_light < 2) &&
        (getDisk c10s (drv c10s.disksys_light)).isSome) :=
  ⟨by decide, by decide,
   ((C10_tick_frame c10s (by decide)).2.1 (by decide)).1⟩

theorem watchdog_count (T : Nat) : ∀ (k c : Nat), c + k < T →
    watchdog_run T (List.replicate k true) c = (List.replicate k false, c + k) := by
  intro k
  induction k with
  | zero =>
    intro c h
    simp [watchdog_run]
  | succ k ih =>
    intro c h
    simp only [List.replicate_succ, watchdog_run]
    rw [show watchdog_step T true c = (false, c + 1) from by
      unfold watchdog_step
      rw [if_pos rfl, if_neg (by omega)]]
    rw [ih (c + 1) (by omega)]
    refine Prod.ext ?_ ?_
    · show false :: List.replicate k false = List.replicate (k + 1) false
      rw [List.replicate_succ]
    · show c + 1 + k = c + (k + 1)
      omega

theorem watchdog_run_append (T : Nat) (l1 l2 : List Bool) (c : Nat) :
    watchdog_run T (l1 ++ l2) c =
      ((watchdog_run T l1 c).1 ++ (watchdog_run T l2 (watchdog_run T l1 c).2).1,
        (watchdog_run T l2 (watchdog_run T l1 c).2).2) := by
  induction l1 generalizing c with
  | nil => simp [watchdog_run]
  | cons e es ih =>
    simp only [List.cons_append, watchdog_run, List.append_eq]
    rw [ih]

/-- Claim C8: with a positive watchdog threshold, a scanline boundary
at which the queue is non-empty resets the counter to 0 without
pushing; an empty boundary below the threshold just counts; the push
of 0x94 happens exactly at the boundary where the count of consecutive
empty observations reaches the threshold, and the counter resets to 0
there: from a reset counter, k < T empty boundaries push nothing and
leave the counter at k, while T consecutive empty boundaries push
exactly once, at the T-th boundary, leaving the counter at 0. -/
theorem C8_watchdog (T : Nat) (hT : 0 < T) :
    (∀ c, watchdog_step T false c = (false, 0)) ∧
    (∀ c, c + 1 < T → watchdog_step T true c = (false, c + 1)) ∧
    (∀ c, T ≤ c + 1 → watchdog_step T true c = (true, 0)) ∧
    (∀ k, k < T → watchdog_run T (List.replicate k true) 0 =
      (List.replicate k false, k)) ∧
    watchdog_run T (List.replicate T true) 0 =
      (List.replicate (T - 1) false ++ [true], 0) := by
  refine ⟨?_, ?_, ?_, ?_, ?_⟩
  · intro c
    unfold watchdog_step
    simp
  · intro c h
    unfold watchdog_step
    rw [if_pos rfl, if_neg (by omega)]
  · intro c h
    unfold watchdog_step
    rw [if_pos rfl, if_pos h]
  · intro k hk
    have := watchdog_count T k 0 (by omega)
    simpa using this
  · have hsplit : List.replicate T true = List.replicate (T - 1) true ++ [true] := by
      conv_lhs => rw [show T = (T - 1) + 1 from by omega]
      rw [List.replicate_succ' (T - 1)]
    rw [hsplit, watchdog_run_append]
    have h1 := watchdog_count T (T - 1) 0 (by omega)
    rw [h1]
    rw [show watchdog_run T [true] (0 + (T - 1)) = ([true], 0) from by
      simp only [watchdog_run]
      rw [show watchdog_step T true (0 + (T - 1)) = (true, 0) from by
        unfold watchdog_step
        rw [if_pos rfl, if_pos (by omega)]]]

/-- Witness for C8 at threshold 2. -/
theorem C8_watchdog_witness :
    (0 < 2) ∧
    watchdog_step 2 false 5 = (false, 0) ∧
    watchdog_step 2 true 0 = (false, 1) ∧
    watchdog_step 2 true 1 = (true, 0) ∧
    watchdog_run 2 (List.replicate 1 true) 0 = (List.replicate 1 false, 1) ∧
    watchdog_run 2 (List.replicate 2 true) 0 =
      (List.replicate (2 - 1) false ++ [true], 0) :=
  ⟨by decide,
   (C8_watchdog 2 (by decide)).1 5,
   (C8_watchdog 2 (by decide)).2.1 0 (by decide),
   (C8_watchdog 2 (by decide)).2.2.1 1 (by decide),
   (C8_watchdog 2 (by decide)).2.2.2.1 1 (by decide),
   (C8_watchdog 2 (by decide)).2.2.2.2⟩
